import Mathlib

/-!
Verification development for the Price-Tracking-Bot repository
(src/bot.py and src/tracker.py), as a shallow embedding in Lean 4.

Python strings are modelled as Lean `String`s (lists of characters),
machine floats as exact rationals `ℚ`, the PostgreSQL `products` table as a
`List Product` in insertion order, and the Discord conversation of the
`add_product` wizard as a list of user responses where a missing or late
reply is a `Response.timeout`.  The browser driven by `fetch_price_dynamic`
is abstracted into a `PageOutcome` describing what the navigation and the
locator produced; everything after that point is translated line by line
from `tracker.py`.
-/

set_option maxRecDepth 4000

namespace PriceBot

/-! ### Python string primitives used by the bot -/

/-- ASCII whitespace recognised by Python's `str.strip()`. -/
def pyIsSpace (c : Char) : Bool :=
  c == ' ' || c == '\t' || c == '\n' || c == '\r' || c == '\x0b' || c == '\x0c'

/-- Python `str.strip()`: drop leading and trailing whitespace. -/
def strip (s : String) : String :=
  ⟨((s.data.dropWhile pyIsSpace).reverse.dropWhile pyIsSpace).reverse⟩

/-- Python `str.lower()` (ASCII letters, as used for store names). -/
def lower (s : String) : String :=
  ⟨s.data.map Char.toLower⟩

/-! ### tracker.py — fetch_price_dynamic

`src/tracker.py` lines 25-63.  The stages before text extraction
(`page.goto`, `wait_for_selector`, `query_selector`) talk to a live
browser; they are abstracted as a `PageOutcome`.  Every exception raised
there is caught by the blanket `except` and turned into `None`. -/

/-- What the navigation/locator stage of one fetch produced:
a navigation timeout of `page.goto` (raises, caught → `None`),
a `wait_for_selector` timeout (raises, caught → `None`),
`query_selector` returning no element (falls through → `None`),
or an element whose `text_content()` is `s`. -/
inductive PageOutcome
  | navTimeout
  | noMatch
  | noElement
  | text (s : String)
deriving DecidableEq

/-- `re.sub(r"[^\d\.]", "", price_text)`: keep only digits and dots. -/
def cleanText (s : String) : List Char :=
  s.data.filter (fun c => c.isDigit || c == '.')

/-- Numeric value of a list of decimal digit characters (0 when empty). -/
def digitsVal (l : List Char) : ℕ :=
  l.foldl (fun a c => 10 * a + (c.toNat - 48)) 0

/-- Python `float()` on a string made only of digits and dots:
succeeds iff there is at most one dot and at least one digit.  The value
`intPart + fracPart / 10 ^ len` is built as the single fraction
`(intPart * 10 ^ len + fracPart) / 10 ^ len`. -/
def parsePrice (l : List Char) : Option ℚ :=
  if l.count '.' = 0 then
    if l.isEmpty then none else some (digitsVal l)
  else if l.count '.' = 1 then
    let intPart := l.takeWhile (fun c => c != '.')
    let fracPart := (l.dropWhile (fun c => c != '.')).tail
    if intPart.isEmpty && fracPart.isEmpty then none
    else
      some (mkRat (digitsVal intPart * 10 ^ fracPart.length + digitsVal fracPart)
        (10 ^ fracPart.length))
  else none

/-- Round to the nearest integer, ties to even (Python `round`), written
on the reduced fraction `q.num / q.den`: with `f` the floor, the
fractional remainder is `rho / q.den`, and the comparisons with one half
are cleared of denominators. -/
def roundHalfEven (q : ℚ) : ℤ :=
  let f := q.num.fdiv q.den
  let rho := q.num - f * q.den
  if 2 * rho < (q.den : ℤ) then f
  else if (q.den : ℤ) < 2 * rho then f + 1
  else if f % 2 = 0 then f else f + 1

/-- Python `round(x, 2)` on the exact rational value: the nearest
multiple of `1/100`, ties to even.  `q * 100` is `q.num * 100 / q.den`. -/
def round2 (q : ℚ) : ℚ :=
  mkRat (roundHalfEven (mkRat (q.num * 100) q.den)) 100

/-- `fetch_price_dynamic` (src/tracker.py lines 41-61), from the point the
browser outcome is known.  On an extracted text `s`: clean it with the
regex, return `None` on an empty remainder, `round(float(cleaned), 2)`
otherwise — a `float()` failure is caught by the blanket `except` and also
yields `None`.  All failure paths return the same `None`. -/
def fetch_price_dynamic (o : PageOutcome) : Option ℚ :=
  match o with
  | .navTimeout => none
  | .noMatch => none
  | .noElement => none
  | .text s =>
      let cleaned := cleanText s
      if cleaned.isEmpty then none
      else
        match parsePrice cleaned with
        | some v => some (round2 v)
        | none => none

/-! ### Python float() for the wizard's target step

`float(msg.content.strip())` in src/bot.py line 139.  Modelled for sign,
decimal mantissa and exponent; the special strings inf/nan and digit-group
underscores, which CPython also accepts, are outside this model. -/

/-- Mantissa part: digits and at most one dot, at least one digit. -/
def parseMantissa (l : List Char) : Option ℚ :=
  if l.all (fun c => c.isDigit || c == '.') then parsePrice l else none

/-- Exponent part after `e`/`E`: optional sign, then digits. -/
def parseExpPart : List Char → Option ℤ
  | '+' :: r => if r.isEmpty || !r.all Char.isDigit then none else some (digitsVal r)
  | '-' :: r => if r.isEmpty || !r.all Char.isDigit then none else some (-(digitsVal r : ℤ))
  | r => if r.isEmpty || !r.all Char.isDigit then none else some (digitsVal r)

/-- `m * 10 ^ e` for an integer exponent, as one fraction. -/
def mulPow10 (m : ℚ) : ℤ → ℚ
  | .ofNat k => mkRat (m.num * ((10 ^ k : ℕ) : ℤ)) m.den
  | .negSucc k => mkRat m.num (m.den * 10 ^ (k + 1))

/-- Unsigned float literal: mantissa with optional `e`/`E` exponent. -/
def pyFloatUnsigned (l : List Char) : Option ℚ :=
  let mant := l.takeWhile (fun c => c != 'e' && c != 'E')
  let rest := l.dropWhile (fun c => c != 'e' && c != 'E')
  match rest with
  | [] => parseMantissa mant
  | _ :: er =>
      match parseMantissa mant, parseExpPart er with
      | some m, some e => some (mulPow10 m e)
      | _, _ => none

/-- Python `float(s)` for an already-stripped string: optional sign then
an unsigned literal.  Note it accepts negative numbers. -/
def pyFloat (s : String) : Option ℚ :=
  match s.data with
  | '+' :: rest => pyFloatUnsigned rest
  | '-' :: rest => (pyFloatUnsigned rest).map (fun q => -q)
  | l => pyFloatUnsigned l

/-! ### The URL validation regex

`re.match(r"https?://(?:[-\w.]|(?:%[\da-fA-F]{2}))+", url)` in
src/bot.py line 127: anchored at the start, needs the scheme and at least
one body unit; trailing text is ignored by `re.match`. -/

/-- `\w` (ASCII): letters, digits, underscore. -/
def isWordChar (c : Char) : Bool := c.isAlphanum || c == '_'

/-- One character of the class `[-\w.]`. -/
def isUrlBodyChar (c : Char) : Bool := c == '-' || isWordChar c || c == '.'

/-- `[\da-fA-F]`. -/
def isHexChar (c : Char) : Bool :=
  c.isDigit || (97 ≤ c.toNat && c.toNat ≤ 102) || (65 ≤ c.toNat && c.toNat ≤ 70)

/-- After the scheme, at least one unit of `(?:[-\w.]|(?:%[\da-fA-F]{2}))`
must match at the front. -/
def urlBodyStart : List Char → Bool
  | '%' :: a :: b :: _ => isHexChar a && isHexChar b
  | c :: _ => isUrlBodyChar c
  | [] => false

/-- Strip the literal scheme `https?://` from the front. -/
def stripScheme : List Char → Option (List Char)
  | 'h' :: 't' :: 't' :: 'p' :: 's' :: ':' :: '/' :: '/' :: rest => some rest
  | 'h' :: 't' :: 't' :: 'p' :: ':' :: '/' :: '/' :: rest => some rest
  | _ => none

/-- Whether `re.match` of the URL pattern succeeds on `s`. -/
def validUrl (s : String) : Bool :=
  match stripScheme s.data with
  | some rest => urlBodyStart rest
  | none => false

/-! ### PostgreSQL ILIKE

`product_name ILIKE pattern` used by check_price, set_target and
remove_product (src/bot.py lines 179, 222, 230, 241): LIKE matching with
`%` (any sequence) and `_` (any one character), case-insensitively.
The `%` case is expressed by trying every suffix of the string; pattern
escape characters do not occur in any input considered here. -/

/-- Core LIKE matcher over character lists, case-insensitive. -/
def likeMatch : List Char → List Char → Bool
  | [], s => s.isEmpty
  | '%' :: p, s => s.tails.any (fun s2 => likeMatch p s2)
  | '_' :: p, s =>
      match s with
      | [] => false
      | _ :: s2 => likeMatch p s2
  | c :: p, s =>
      match s with
      | [] => false
      | c2 :: s2 => (c.toLower == c2.toLower) && likeMatch p s2

/-- `name ILIKE pattern` of PostgreSQL. -/
def ilike (pat s : String) : Bool :=
  likeMatch pat.data s.data

/-! ### bot.py — data model

The `products` table (src/bot.py lines 35-45): `id SERIAL PRIMARY KEY`
and six data columns; note the schema carries no uniqueness constraint
beyond the serial primary key.  The table is modelled as a list of rows
in insertion order. -/

/-- One row of the `products` table. -/
structure Product where
  id : ℕ
  user_id : ℤ
  store : String
  product_name : String
  url : String
  css_selector : String
  target_price : ℚ
deriving DecidableEq

/-- The next SERIAL id for an insert. -/
def nextId (db : List Product) : ℕ :=
  (db.map Product.id).foldr max 0 + 1

/-- `selectors` dictionary: store name to the `"price"` selector string
(`selectors[store]["price"]`, src/bot.py line 146). -/
def lookupSelector (sel : List (String × String)) (store : String) : Option String :=
  (sel.find? (fun e => e.1 == store)).map (fun e => e.2)

/-- Python truthiness of a fetch result (`if price:` / `if not
current_price:`): `None` and `0.0` are both falsy. -/
def truthy : Option ℚ → Bool
  | none => false
  | some q => q != 0

/-! ### bot.py — the add_product wizard

src/bot.py lines 90-172.  The conversation is a list of `Response`s in
the order `bot.wait_for("message", ...)` consumes them; `timeout` stands
for the 30-second deadline expiring (`asyncio.TimeoutError`), and an
exhausted list means no further reply ever arrives, which the same
deadline turns into a timeout. -/

/-- One awaited user reply: either a message or the 30 s deadline expiring. -/
inductive Response
  | timeout
  | msg (s : String)
deriving DecidableEq

/-- How one invocation of `add_product` ends. -/
inductive AddOutcome
  | alreadyActive
  | cancelled
  | storeNotFound
  | fetchFailed
  | added
deriving DecidableEq

/-- Final state of one `add_product` invocation: outcome, the
`active_commands` set, and the `products` table. -/
structure AddResult where
  outcome : AddOutcome
  active : List ℤ
  db : List Product
deriving DecidableEq

/-- Step 3 loop (src/bot.py lines 122-132): ask for a URL until
`re.match` accepts the stripped text; a timeout raises and cancels. -/
def askUrl : List Response → Option (String × List Response)
  | [] => none
  | .timeout :: _ => none
  | .msg s :: rest =>
      let url := strip s
      if validUrl url then some (url, rest) else askUrl rest

/-- Step 4 loop (src/bot.py lines 135-143): ask for a target price until
`float()` parses the stripped text; a timeout raises and cancels. -/
def askTarget : List Response → Option (ℚ × List Response)
  | [] => none
  | .timeout :: _ => none
  | .msg s :: rest =>
      match pyFloat (strip s) with
      | some t => some (t, rest)
      | none => askTarget rest

/-- Body of `add_product` inside the `try:` (src/bot.py lines 102-166):
store step (an unknown store sends a warning and returns), name step,
URL loop, target loop, the fetch, the truthiness guard, and the INSERT.
Returns the outcome and the resulting table. -/
def addBody (sel : List (String × String)) (fetch : String → String → Option ℚ)
    (author : ℤ) (db : List Product) : List Response → AddOutcome × List Product
  | [] => (.cancelled, db)
  | .timeout :: _ => (.cancelled, db)
  | .msg s1 :: r1 =>
      let store := lower (strip s1)
      match lookupSelector sel store with
      | none => (.storeNotFound, db)
      | some selector =>
          match r1 with
          | [] => (.cancelled, db)
          | .timeout :: _ => (.cancelled, db)
          | .msg s2 :: r2 =>
              let name := strip s2
              match askUrl r2 with
              | none => (.cancelled, db)
              | some (url, r3) =>
                  match askTarget r3 with
                  | none => (.cancelled, db)
                  | some (target, _) =>
                      let price := fetch url selector
                      if truthy price then
                        (.added, db ++ [⟨nextId db, author, store, name, url, selector, target⟩])
                      else (.fetchFailed, db)

/-- `add_product` (src/bot.py lines 90-172).  A second concurrent start
by the same author is rejected by the `active_commands` guard; otherwise
the author id is added to the set, the body runs, and the `finally:`
discards the id again — so the set after the call equals the set before. -/
def add_product (sel : List (String × String)) (fetch : String → String → Option ℚ)
    (author : ℤ) (active : List ℤ) (db : List Product)
    (responses : List Response) : AddResult :=
  if author ∈ active then ⟨.alreadyActive, active, db⟩
  else
    let r := addBody sel fetch author db responses
    ⟨r.1, active, r.2⟩

/-! ### bot.py — check_price, price_checker, set_target, remove_product -/

/-- What the manual `check_price` command answers. -/
inductive CheckOutcome
  | notFound
  | priceIs (q : ℚ)
  | couldNotFetch
deriving DecidableEq

/-- `check_price` (src/bot.py lines 176-193): `fetchone()` on
`user_id = author AND product_name ILIKE pattern`, then fetch and test
the result for truthiness. -/
def check_price (fetch : String → String → Option ℚ) (author : ℤ)
    (pat : String) (db : List Product) : CheckOutcome :=
  match db.find? (fun p => p.user_id == author && ilike pat p.product_name) with
  | none => .notFound
  | some p =>
      let price := fetch p.url p.css_selector
      if truthy price then .priceIs (price.getD 0) else .couldNotFetch

/-- Which of the two alert messages was sent. -/
inductive AlertKind
  | drop
  | matched
deriving DecidableEq

/-- One alert message sent to the channel by `price_checker`. -/
structure Alert where
  user_id : ℤ
  kind : AlertKind
  product_name : String
  price : ℚ
  url : String
deriving DecidableEq

/-- The per-product body of the `price_checker` loop (src/bot.py lines
205-214): fetch, test truthiness, then `price < target` sends the
price-drop alert and `price == target` the target-matched alert. -/
def checkProduct (fetch : String → String → Option ℚ) (p : Product) : List Alert :=
  let price := fetch p.url p.css_selector
  if truthy price then
    let q := price.getD 0
    if q < p.target_price then [⟨p.user_id, .drop, p.product_name, q, p.url⟩]
    else if q = p.target_price then [⟨p.user_id, .matched, p.product_name, q, p.url⟩]
    else []
  else []

/-- One run of the scheduled `price_checker` task (src/bot.py lines
197-214): `SELECT * FROM products`, then the per-product body for each
row; the alerts sent, in order. -/
def price_checker (fetch : String → String → Option ℚ) (db : List Product) : List Alert :=
  db.flatMap (checkProduct fetch)

/-- `n` consecutive runs of the scheduled task against an unchanged
table and unchanged page contents.  The task keeps no state between
runs, so each run is the same pure computation. -/
def scheduled_runs (n : ℕ) (fetch : String → String → Option ℚ)
    (db : List Product) : List (List Alert) :=
  match n with
  | 0 => []
  | n + 1 => price_checker fetch db :: scheduled_runs n fetch db

/-- `set_target` (src/bot.py lines 219-234): `fetchone()` for existence,
then `UPDATE ... WHERE user_id = author AND product_name ILIKE pattern`,
which updates every matching row.  Returns whether a row was found and
the resulting table. -/
def set_target (author : ℤ) (pat : String) (target : ℚ)
    (db : List Product) : Bool × List Product :=
  if db.any (fun p => p.user_id == author && ilike pat p.product_name) then
    (true,
     db.map (fun p =>
       if p.user_id == author && ilike pat p.product_name then
         { p with target_price := target }
       else p))
  else (false, db)

/-- `remove_product` (src/bot.py lines 238-249):
`DELETE ... WHERE user_id = author AND product_name ILIKE pattern`,
which deletes every matching row; `rowcount = 0` reports not-found.
Returns whether any row was deleted and the resulting table. -/
def remove_product (author : ℤ) (pat : String)
    (db : List Product) : Bool × List Product :=
  let db2 := db.filter (fun p => !(p.user_id == author && ilike pat p.product_name))
  (db2.length != db.length, db2)

/-! ### Helper lemmas -/

/-- The empty cleaned string never parses. -/
theorem parsePrice_nil : parsePrice [] = none := by decide

/-- Everything the fetcher returns for an extracted text is the parse of
the cleaned text, rounded. -/
theorem fetch_text_eq (s : String) :
    fetch_price_dynamic (PageOutcome.text s) = (parsePrice (cleanText s)).map round2 := by
  unfold fetch_price_dynamic
  rcases h : parsePrice (cleanText s) with _ | v
  · by_cases he : (cleanText s).isEmpty <;> simp [he, h]
  · have he : (cleanText s).isEmpty = false := by
      rcases hc : cleanText s with _ | ⟨c, l⟩
      · rw [hc] at h; rw [parsePrice_nil] at h; cases h
      · rfl
    simp [he, h]

/-- A successful parse of a digits-and-dots string is non-negative. -/
theorem parsePrice_nonneg (l : List Char) (q : ℚ) (h : parsePrice l = some q) : 0 ≤ q := by
  unfold parsePrice at h
  split_ifs at h with h1 h2 h3 <;>
  first
    | exact Option.noConfusion h
    | (injection h with h; subst h; exact Nat.cast_nonneg _)
    | (simp only [] at h;
       split at h <;>
        first
          | exact Option.noConfusion h
          | (injection h with h; subst h; rw [Rat.mkRat_eq_div]; positivity))

/-! ### Claim C3 -/

/-- C3: the price fetcher strips every character that is not a digit or a
decimal point from the element text; an empty or unparseable remainder
yields the unavailable result (`none`), and otherwise the parsed value —
always a non-negative decimal — is returned rounded to two decimal
places; in particular the text `"$19.99 CAD"` yields the price `19.99`. -/
theorem C3_clean_parse_round :
    (∀ s : String,
      fetch_price_dynamic (PageOutcome.text s) = (parsePrice (cleanText s)).map round2)
    ∧ (∀ (s : String) (q : ℚ), parsePrice (cleanText s) = some q → 0 ≤ q)
    ∧ cleanText "$19.99 CAD" = ['1', '9', '.', '9', '9']
    ∧ fetch_price_dynamic (PageOutcome.text "$19.99 CAD") = some ((1999 : ℚ) / 100) := by
  refine ⟨fetch_text_eq, fun s q h => parsePrice_nonneg _ _ h, by decide, ?_⟩
  have h : fetch_price_dynamic (PageOutcome.text "$19.99 CAD") = some (mkRat 1999 100) := by
    decide
  rw [h, Rat.mkRat_eq_div]
  norm_num

/-- C3 witness: the non-negativity conjunct applied to the concrete
element text `"$19.99 CAD"`. -/
theorem C3_witness : 0 ≤ mkRat 1999 100 :=
  C3_clean_parse_round.2.1 "$19.99 CAD" (mkRat 1999 100) (by decide)

/-! ### Claim C4 -/

/-- C4 counterexample: a navigation timeout, a locator that never
matches, and unparseable element text all produce the same value
(`None`); the fetch result carries no reason at all, so the three
failure modes are not distinguishable, contrary to the claim. -/
theorem C4_counterexample :
    fetch_price_dynamic PageOutcome.navTimeout = fetch_price_dynamic PageOutcome.noMatch
    ∧ fetch_price_dynamic PageOutcome.noMatch = fetch_price_dynamic (PageOutcome.text "N/A")
    ∧ fetch_price_dynamic PageOutcome.navTimeout = none := by
  decide

/-- C4 amended: every failing fetch — navigation timeout, locator
timeout, missing element, or unparseable element text — returns the
single undifferentiated value `None`; no reason and no raw text is
carried. -/
theorem C4_single_failure_value :
    fetch_price_dynamic PageOutcome.navTimeout = none
    ∧ fetch_price_dynamic PageOutcome.noMatch = none
    ∧ fetch_price_dynamic PageOutcome.noElement = none
    ∧ ∀ s : String, parsePrice (cleanText s) = none →
        fetch_price_dynamic (PageOutcome.text s) = none := by
  refine ⟨rfl, rfl, rfl, fun s h => ?_⟩
  rw [fetch_text_eq, h]
  rfl

/-- C4 witness: the unparseable-text conjunct applied to the concrete
element text `"N/A"`. -/
theorem C4_witness : fetch_price_dynamic (PageOutcome.text "N/A") = none :=
  C4_single_failure_value.2.2.2 "N/A" (by decide)

/-! ### Wizard helper lemmas -/

/-- Invalid URL answers are consumed by the re-prompt loop. -/
theorem askUrl_invalid (bad : List String) (rest : List Response)
    (h : ∀ b ∈ bad, validUrl (strip b) = false) :
    askUrl (bad.map Response.msg ++ rest) = askUrl rest := by
  induction bad with
  | nil => rfl
  | cons b bs ih =>
      have hb : validUrl (strip b) = false := h b (by simp)
      simp only [List.map_cons, List.cons_append, askUrl, hb, Bool.false_eq_true, if_false]
      exact ih (fun x hx => h x (by simp [hx]))

/-- Unparseable target answers are consumed by the re-prompt loop. -/
theorem askTarget_invalid (bad : List String) (rest : List Response)
    (h : ∀ b ∈ bad, pyFloat (strip b) = none) :
    askTarget (bad.map Response.msg ++ rest) = askTarget rest := by
  induction bad with
  | nil => rfl
  | cons b bs ih =>
      have hb : pyFloat (strip b) = none := h b (by simp)
      simp only [List.map_cons, List.cons_append, askTarget, hb]
      exact ih (fun x hx => h x (by simp [hx]))

/-- A full run of the wizard on one valid answer per step: the result is
decided by the truthiness of the fetched price. -/
theorem add_product_script (sel : List (String × String))
    (fetch : String → String → Option ℚ) (author : ℤ) (active : List ℤ)
    (db : List Product) (s1 s2 u t selv : String) (q : ℚ)
    (hact : author ∉ active)
    (hstore : lookupSelector sel (lower (strip s1)) = some selv)
    (hurl : validUrl (strip u) = true)
    (ht : pyFloat (strip t) = some q) :
    add_product sel fetch author active db
        [Response.msg s1, Response.msg s2, Response.msg u, Response.msg t]
      = if truthy (fetch (strip u) selv) then
          ⟨.added, active,
            db ++ [⟨nextId db, author, lower (strip s1), strip s2, strip u, selv, q⟩]⟩
        else ⟨.fetchFailed, active, db⟩ := by
  by_cases hc : truthy (fetch (strip u) selv) <;>
    simp [add_product, addBody, askUrl, askTarget, hstore, hurl, ht, hact, hc]

/-! ### Claim C5 -/

/-- C5: whichever prompt-and-wait step the 30 s deadline expires at — the
store step, the name step, the URL step, or the target step, with every
earlier step answered correctly — the wizard session ends cancelled
(`asyncio.TimeoutError` caught), the products table is unchanged (no
partial record), and the `active_commands` lock set is back to what it
was before the command started. -/
theorem C5_timeout_cancels (sel : List (String × String))
    (fetch : String → String → Option ℚ) (author : ℤ) (active : List ℤ)
    (db : List Product) (s1 s2 u selv : String)
    (hact : author ∉ active)
    (hstore : lookupSelector sel (lower (strip s1)) = some selv)
    (hurl : validUrl (strip u) = true) :
    ∀ rest : List Response,
      ∀ pre ∈ [([] : List Response), [Response.msg s1],
               [Response.msg s1, Response.msg s2],
               [Response.msg s1, Response.msg s2, Response.msg u]],
        add_product sel fetch author active db (pre ++ Response.timeout :: rest)
          = ⟨AddOutcome.cancelled, active, db⟩ := by
  intro rest pre hpre
  simp only [List.mem_cons, List.mem_singleton, List.not_mem_nil, or_false] at hpre
  rcases hpre with rfl | rfl | rfl | rfl <;>
    simp [add_product, addBody, askUrl, askTarget, hstore, hurl, hact]

/-- C5 witness: a concrete session timing out at the very first step. -/
theorem C5_witness :
    add_product [("amazon.ca", "span.price")] (fun _ _ => some (10 : ℚ)) 1 [] []
        [Response.timeout]
      = ⟨AddOutcome.cancelled, [], []⟩ :=
  C5_timeout_cancels [("amazon.ca", "span.price")] (fun _ _ => some (10 : ℚ)) 1 [] []
    "amazon.ca" "Widget" "https://a.com" "span.price"
    (by decide) (by decide) (by decide) [] [] (by decide)

/-! ### Claim C6 -/

/-- C6 counterexample: a store name absent from the selector registry,
given within the deadline, does not re-prompt the store step — the
session terminates at once (src/bot.py line 113 returns), so the four
valid answers that follow are never consumed and no record is created.
Under the claim the run would have ended with the product added. -/
theorem C6_counterexample :
    add_product [("amazon.ca", "span.price")] (fun _ _ => some (10 : ℚ)) 1 [] []
        [Response.msg "walmart.ca", Response.msg "amazon.ca", Response.msg "Widget",
         Response.msg "https://a.com", Response.msg "20"]
      = ⟨AddOutcome.storeNotFound, [], []⟩ := by
  decide

/-- C6 amended: an invalid URL or an unparseable target price given
within the deadline re-prompts the same step — a run with invalid
attempts interleaved ends exactly like the run without them — but an
unknown store name terminates the session immediately with no record
and the lock released, rather than re-prompting. -/
theorem C6_invalid_answer_reprompts (sel : List (String × String))
    (fetch : String → String → Option ℚ) (author : ℤ) (active : List ℤ)
    (db : List Product) (s1 s2 u t selv : String) (q : ℚ)
    (badUrls badTargets : List String)
    (hact : author ∉ active)
    (hstore : lookupSelector sel (lower (strip s1)) = some selv)
    (hbadu : ∀ b ∈ badUrls, validUrl (strip b) = false)
    (hurl : validUrl (strip u) = true)
    (hbadt : ∀ b ∈ badTargets, pyFloat (strip b) = none)
    (ht : pyFloat (strip t) = some q) :
    (add_product sel fetch author active db
        (Response.msg s1 :: Response.msg s2 ::
          (badUrls.map Response.msg ++ Response.msg u ::
            (badTargets.map Response.msg ++ [Response.msg t])))
      = add_product sel fetch author active db
          [Response.msg s1, Response.msg s2, Response.msg u, Response.msg t])
    ∧ ∀ s0 : String, ∀ rest : List Response,
        lookupSelector sel (lower (strip s0)) = none →
          add_product sel fetch author active db (Response.msg s0 :: rest)
            = ⟨AddOutcome.storeNotFound, active, db⟩ := by
  constructor
  · simp only [add_product, addBody, hstore,
      askUrl_invalid badUrls _ hbadu, askUrl, hurl, if_true,
      askTarget_invalid badTargets _ hbadt, askTarget, ht]
  · intro s0 rest h0
    simp [add_product, addBody, h0, hact]

/-- C6 witness: one rejected URL and one rejected target price, each
re-prompted, then valid answers; the run ends exactly like the run with
only the valid answers. -/
theorem C6_witness :
    add_product [("amazon.ca", "span.price")] (fun _ _ => some (10 : ℚ)) 1 [] []
        [Response.msg "amazon.ca", Response.msg "Widget", Response.msg "not a url",
         Response.msg "https://a.com", Response.msg "abc", Response.msg "20"]
      = add_product [("amazon.ca", "span.price")] (fun _ _ => some (10 : ℚ)) 1 [] []
          [Response.msg "amazon.ca", Response.msg "Widget",
           Response.msg "https://a.com", Response.msg "20"] :=
  (C6_invalid_answer_reprompts [("amazon.ca", "span.price")] (fun _ _ => some (10 : ℚ))
    1 [] [] "amazon.ca" "Widget" "https://a.com" "20" "span.price" 20
    ["not a url"] ["abc"] (by decide) (by decide)
    (by intro b hb; simp only [List.mem_singleton] at hb; subst hb; decide)
    (by decide)
    (by intro b hb; simp only [List.mem_singleton] at hb; subst hb; decide)
    (by decide)).1

/-! ### Claim C7 -/

/-- C7 counterexample: the target-step answer `"-5"` is not a
non-negative decimal, yet `float("-5")` succeeds, so the wizard accepts
it, advances, and persists a product whose `target_price` is `-5` —
the claim says such input is rejected and re-prompted and that every
persisted target is non-negative. -/
theorem C7_counterexample :
    add_product [("amazon.ca", "span.price")] (fun _ _ => some (10 : ℚ)) 1 [] []
        [Response.msg "amazon.ca", Response.msg "Widget",
         Response.msg "https://a.com", Response.msg "-5"]
      = ⟨AddOutcome.added, [],
         [⟨1, 1, "amazon.ca", "Widget", "https://a.com", "span.price", -5⟩]⟩ := by
  decide

/-- C7 amended: the target step accepts any answer that Python
`float()` parses — including negative values — and only unparseable
text is re-prompted; the persisted `target_price` equals the parsed
value, so it may be negative. -/
theorem C7_target_accepts_any_float (sel : List (String × String))
    (fetch : String → String → Option ℚ) (author : ℤ) (active : List ℤ)
    (db : List Product) (s1 s2 u t selv : String) (q : ℚ)
    (badTargets : List String)
    (hact : author ∉ active)
    (hstore : lookupSelector sel (lower (strip s1)) = some selv)
    (hurl : validUrl (strip u) = true)
    (hbadt : ∀ b ∈ badTargets, pyFloat (strip b) = none)
    (ht : pyFloat (strip t) = some q)
    (hf : truthy (fetch (strip u) selv) = true) :
    (add_product sel fetch author active db
        (Response.msg s1 :: Response.msg s2 :: Response.msg u ::
          (badTargets.map Response.msg ++ [Response.msg t]))).db
      = db ++ [⟨nextId db, author, lower (strip s1), strip s2, strip u, selv, q⟩] := by
  simp only [add_product, addBody, hstore, askUrl, hurl, if_true,
    askTarget_invalid badTargets _ hbadt, askTarget, ht, hact, hf]
  simp [hact, hf]

/-- C7 witness: the unparseable answer `"abc"` is re-prompted and the
negative answer `"-5"` is then accepted and persisted. -/
theorem C7_witness :
    (add_product [("amazon.ca", "span.price")] (fun _ _ => some (10 : ℚ)) 1 [] []
        [Response.msg "amazon.ca", Response.msg "Widget", Response.msg "https://a.com",
         Response.msg "abc", Response.msg "-5"]).db
      = [⟨1, 1, "amazon.ca", "Widget", "https://a.com", "span.price", -5⟩] :=
  C7_target_accepts_any_float [("amazon.ca", "span.price")] (fun _ _ => some (10 : ℚ))
    1 [] [] "amazon.ca" "Widget" "https://a.com" "-5" "span.price" (-5) ["abc"]
    (by decide) (by decide) (by decide)
    (by intro b hb; simp only [List.mem_singleton] at hb; subst hb; decide)
    (by decide) (by decide)

/-! ### Claim C2 -/

/-- C2 counterexample: the table already holds `(owner 1, "Widget")`;
running the wizard again with the same name succeeds — no
duplicate-name error exists anywhere in the code and the schema has no
uniqueness constraint — and a second record for the same pair is
stored. -/
theorem C2_counterexample :
    add_product [("amazon.ca", "span.price")] (fun _ _ => some (10 : ℚ)) 1 []
        [⟨1, 1, "amazon.ca", "Widget", "https://a.com/w", "span.price", 20⟩]
        [Response.msg "amazon.ca", Response.msg "Widget",
         Response.msg "https://a.com/w", Response.msg "20"]
      = ⟨AddOutcome.added, [],
         [⟨1, 1, "amazon.ca", "Widget", "https://a.com/w", "span.price", 20⟩,
          ⟨2, 1, "amazon.ca", "Widget", "https://a.com/w", "span.price", 20⟩]⟩ := by
  decide

/-- C2 amended: creating a product whose `(owner_id, product_name)`
pair already exists does not fail — `add_product` performs no duplicate
check and the `products` table has no uniqueness constraint — so the
wizard appends a second record for the pair, leaving the existing
record unchanged. -/
theorem C2_duplicate_create_succeeds (sel : List (String × String))
    (fetch : String → String → Option ℚ) (author : ℤ) (active : List ℤ)
    (db : List Product) (s1 s2 u t selv : String) (q : ℚ) (e : Product)
    (hact : author ∉ active)
    (hstore : lookupSelector sel (lower (strip s1)) = some selv)
    (hurl : validUrl (strip u) = true)
    (ht : pyFloat (strip t) = some q)
    (hf : truthy (fetch (strip u) selv) = true)
    (he : e ∈ db) (heu : e.user_id = author) (hen : e.product_name = strip s2) :
    (add_product sel fetch author active db
        [Response.msg s1, Response.msg s2, Response.msg u, Response.msg t]).outcome
        = AddOutcome.added
    ∧ (add_product sel fetch author active db
        [Response.msg s1, Response.msg s2, Response.msg u, Response.msg t]).db
        = db ++ [⟨nextId db, author, lower (strip s1), strip s2, strip u, selv, q⟩]
    ∧ e ∈ (add_product sel fetch author active db
        [Response.msg s1, Response.msg s2, Response.msg u, Response.msg t]).db := by
  have hrun := add_product_script sel fetch author active db s1 s2 u t selv q
    hact hstore hurl ht
  rw [hrun, if_pos (by simp [hf])]
  exact ⟨rfl, rfl, List.mem_append_left _ he⟩

/-- C2 witness: the amended statement at the concrete duplicate table of
the counterexample. -/
theorem C2_witness :
    (add_product [("amazon.ca", "span.price")] (fun _ _ => some (10 : ℚ)) 1 []
        [⟨1, 1, "amazon.ca", "Widget", "https://a.com/w", "span.price", 20⟩]
        [Response.msg "amazon.ca", Response.msg "Widget",
         Response.msg "https://a.com/w", Response.msg "20"]).outcome = AddOutcome.added :=
  (C2_duplicate_create_succeeds [("amazon.ca", "span.price")] (fun _ _ => some (10 : ℚ))
    1 [] [⟨1, 1, "amazon.ca", "Widget", "https://a.com/w", "span.price", 20⟩]
    "amazon.ca" "Widget" "https://a.com/w" "20" "span.price" 20
    ⟨1, 1, "amazon.ca", "Widget", "https://a.com/w", "span.price", 20⟩
    (by decide) (by decide) (by decide) (by decide) (by decide)
    (by decide) (by decide) (by decide)).1

/-! ### Scheduler helper lemmas -/

/-- What the scheduler loop body does for one product whose fetch
returned a nonzero price. -/
theorem checkProduct_eq (fetch : String → String → Option ℚ) (p : Product) (q : ℚ)
    (hf : fetch p.url p.css_selector = some q) (h0 : q ≠ 0) :
    checkProduct fetch p =
      if q < p.target_price then [⟨p.user_id, .drop, p.product_name, q, p.url⟩]
      else if q = p.target_price then [⟨p.user_id, .matched, p.product_name, q, p.url⟩]
      else [] := by
  unfold checkProduct
  rw [hf]
  simp [truthy, h0]

/-- A nonzero fetched price at or below target produces an alert for
that product, carrying its owner, name and price. -/
theorem checkProduct_fires (fetch : String → String → Option ℚ) (p : Product) (q : ℚ)
    (hf : fetch p.url p.css_selector = some q) (h0 : 0 < q) (hle : q ≤ p.target_price) :
    ∃ a ∈ checkProduct fetch p,
      a.user_id = p.user_id ∧ a.product_name = p.product_name ∧ a.price = q := by
  rw [checkProduct_eq fetch p q hf (ne_of_gt h0)]
  rcases lt_or_eq_of_le hle with h | h
  · simp [h]
  · simp [h, lt_irrefl]

/-- Each scheduled run is the same pure computation. -/
theorem scheduled_runs_replicate (n : ℕ) (fetch : String → String → Option ℚ)
    (db : List Product) :
    scheduled_runs n fetch db = List.replicate n (price_checker fetch db) := by
  induction n with
  | zero => rfl
  | succ k ih => simp [scheduled_runs, ih, List.replicate_succ]

/-! ### Claim C1 -/

/-- C1 counterexample: the page text `"$0.00"` is successfully fetched
and parsed to the price `0`, which is at or below the stored target `5`,
yet the scheduled run emits no alert for the product — `if price:`
treats `0.0` as falsy — so the claimed "alert iff price at or below
target" equivalence fails at price `0`. -/
theorem C1_counterexample :
    fetch_price_dynamic (PageOutcome.text "$0.00") = some 0
    ∧ (0 : ℚ) ≤ 5
    ∧ price_checker (fun _ _ => fetch_price_dynamic (PageOutcome.text "$0.00"))
        [⟨1, 7, "amazon.ca", "Widget", "https://a.com", ".price", 5⟩] = [] := by
  decide

/-- C1 amended: for every stored product and every successfully fetched
positive price `q`, the scheduled check emits an alert for that product
iff `q` is at or below the stored target (equality fires, one cent above
does not, one cent below does); a fetched price of exactly `0` never
alerts.  Every alert produced for the product is part of the run's
output and carries the owner, the name and the fetched price. -/
theorem C1_alert_iff_le_target (fetch : String → String → Option ℚ)
    (db : List Product) (p : Product) (q : ℚ)
    (hp : p ∈ db) (hf : fetch p.url p.css_selector = some q) (h0 : 0 < q) :
    ((checkProduct fetch p ≠ []) ↔ q ≤ p.target_price)
    ∧ (∀ a ∈ checkProduct fetch p,
        a ∈ price_checker fetch db ∧ a.user_id = p.user_id
          ∧ a.product_name = p.product_name ∧ a.price = q)
    ∧ (checkProduct (fun _ _ => some (mkRat 1999 100))
        ⟨1, 7, "s", "W", "u", "c", mkRat 1999 100⟩ ≠ [])
    ∧ checkProduct (fun _ _ => some 20) ⟨1, 7, "s", "W", "u", "c", mkRat 1999 100⟩ = []
    ∧ (checkProduct (fun _ _ => some (mkRat 1998 100))
        ⟨1, 7, "s", "W", "u", "c", mkRat 1999 100⟩ ≠ []) := by
  refine ⟨?_, ?_, by decide, by decide, by decide⟩
  · rw [checkProduct_eq fetch p q hf (ne_of_gt h0)]
    rcases lt_trichotomy q p.target_price with h | h | h
    · simp [h, le_of_lt h]
    · simp [h, lt_irrefl]
    · simp [not_lt_of_gt h, ne_of_gt h, not_le_of_gt h]
  · intro a ha
    refine ⟨?_, ?_⟩
    · unfold price_checker
      exact List.mem_flatMap.2 ⟨p, hp, ha⟩
    · rw [checkProduct_eq fetch p q hf (ne_of_gt h0)] at ha
      split_ifs at ha <;> simp only [List.mem_singleton, List.not_mem_nil] at ha <;>
        first
          | exact absurd ha (by simp)
          | (subst ha; exact ⟨rfl, rfl, rfl⟩)

/-- C1 witness: the equivalence at a product whose target equals the
fetched price `19.99`. -/
theorem C1_witness :
    (checkProduct (fun _ _ => some (mkRat 1999 100))
        ⟨1, 7, "s", "W", "u", "c", mkRat 1999 100⟩ ≠ [])
      ↔ mkRat 1999 100 ≤ mkRat 1999 100 :=
  (C1_alert_iff_le_target (fun _ _ => some (mkRat 1999 100))
    [⟨1, 7, "s", "W", "u", "c", mkRat 1999 100⟩]
    ⟨1, 7, "s", "W", "u", "c", mkRat 1999 100⟩ (mkRat 1999 100)
    (by decide) rfl (by decide)).1

/-! ### Claim C8 -/

/-- C8 counterexample: a product whose fetched price stays at `0` — at
or below its target `5` — over two consecutive scheduler runs produces
no alert on either run, because `if price:` treats `0.0` as falsy; the
claim's "each run emits an alert" universal fails at price `0`. -/
theorem C8_counterexample :
    (0 : ℚ) ≤ 5
    ∧ scheduled_runs 2 (fun _ _ => fetch_price_dynamic (PageOutcome.text "$0.00"))
        [⟨1, 7, "amazon.ca", "Widget", "https://a.com", ".price", 5⟩] = [[], []] := by
  decide

/-- C8 amended: alert emission is not de-duplicated across scheduler
runs: consecutive runs against an unchanged table and unchanged pages
are the same pure computation (the loop keeps no record of sent
alerts), and for every product whose fetched price is positive and at
or below its target, every run emits an alert for that product. -/
theorem C8_no_dedup (fetch : String → String → Option ℚ) (db : List Product)
    (p : Product) (q : ℚ) (n : ℕ)
    (hp : p ∈ db) (hf : fetch p.url p.css_selector = some q)
    (h0 : 0 < q) (hle : q ≤ p.target_price) :
    scheduled_runs n fetch db = List.replicate n (price_checker fetch db)
    ∧ ∀ run ∈ scheduled_runs n fetch db,
        ∃ a ∈ run, a.user_id = p.user_id ∧ a.product_name = p.product_name ∧ a.price = q := by
  refine ⟨scheduled_runs_replicate n fetch db, ?_⟩
  intro run hrun
  rw [scheduled_runs_replicate n fetch db] at hrun
  have hr : run = price_checker fetch db := List.eq_of_mem_replicate hrun
  subst hr
  obtain ⟨a, ha, h1, h2, h3⟩ := checkProduct_fires fetch p q hf h0 hle
  exact ⟨a, List.mem_flatMap.2 ⟨p, hp, ha⟩, h1, h2, h3⟩

/-- C8 witness: two consecutive runs against a price of `10` under a
target of `20` are identical. -/
theorem C8_witness :
    scheduled_runs 2 (fun _ _ => some (10 : ℚ)) [⟨1, 7, "s", "W", "u", "c", 20⟩]
      = List.replicate 2
          (price_checker (fun _ _ => some (10 : ℚ)) [⟨1, 7, "s", "W", "u", "c", 20⟩]) :=
  (C8_no_dedup (fun _ _ => some (10 : ℚ)) [⟨1, 7, "s", "W", "u", "c", 20⟩]
    ⟨1, 7, "s", "W", "u", "c", 20⟩ 10 2 (by decide) rfl (by decide) (by decide)).1

/-! ### Claim C9 -/

/-- C9: the fetcher parses the text `"$0.00"` to the value `0`, but
every caller tests the fetch result for truthiness, so `0.0` is handled
exactly like a failed fetch: the manual `check_price` answers with the
could-not-fetch message, `add_product` aborts without inserting a
record, and the scheduled loop emits no alert for the product even
though `0` is at or below any non-negative target. -/
theorem C9_zero_price_treated_as_failure :
    fetch_price_dynamic (PageOutcome.text "$0.00") = some 0
    ∧ (∀ (fetch : String → String → Option ℚ) (author : ℤ) (pat : String)
         (db : List Product) (p : Product),
        db.find? (fun r => r.user_id == author && ilike pat r.product_name) = some p →
        fetch p.url p.css_selector = some 0 →
        check_price fetch author pat db = CheckOutcome.couldNotFetch)
    ∧ (∀ (sel : List (String × String)) (fetch : String → String → Option ℚ)
         (author : ℤ) (active : List ℤ) (db : List Product)
         (s1 s2 u t selv : String) (q : ℚ),
        author ∉ active →
        lookupSelector sel (lower (strip s1)) = some selv →
        validUrl (strip u) = true →
        pyFloat (strip t) = some q →
        fetch (strip u) selv = some 0 →
        add_product sel fetch author active db
            [Response.msg s1, Response.msg s2, Response.msg u, Response.msg t]
          = ⟨AddOutcome.fetchFailed, active, db⟩)
    ∧ (∀ (fetch : String → String → Option ℚ) (p : Product),
        fetch p.url p.css_selector = some 0 → checkProduct fetch p = []) := by
  refine ⟨by decide, ?_, ?_, ?_⟩
  · intro fetch author pat db p hfind hf
    unfold check_price
    rw [hfind]
    dsimp only
    rw [hf]
    simp [truthy]
  · intro sel fetch author active db s1 s2 u t selv q hact hstore hurl ht hf
    rw [add_product_script sel fetch author active db s1 s2 u t selv q hact hstore hurl ht]
    rw [hf]
    simp [truthy]
  · intro fetch p hf
    unfold checkProduct
    rw [hf]
    simp [truthy]

/-- C9 witness: the scheduled loop emits no alert for a product whose
fetch returns exactly `0` under target `5`. -/
theorem C9_witness :
    checkProduct (fun _ _ => some (0 : ℚ)) ⟨1, 7, "s", "W", "u", "c", 5⟩ = [] :=
  C9_zero_price_treated_as_failure.2.2.2 (fun _ _ => some (0 : ℚ))
    ⟨1, 7, "s", "W", "u", "c", 5⟩ rfl

/-! ### ILIKE helper lemmas -/

/-- The pattern `%` matches every string. -/
theorem likeMatch_percent (s : List Char) : likeMatch ['%'] s = true := by
  induction s with
  | nil => rfl
  | cons c t ih =>
      simp only [likeMatch] at ih ⊢
      rw [List.tails_cons, List.any_cons, ih]
      simp

/-- `name ILIKE '%'` holds for every name. -/
theorem ilike_percent (s : String) : ilike "%" s = true :=
  likeMatch_percent s.data

/-- Deleting with the pattern `%` removes exactly the owner's rows. -/
theorem remove_product_percent (author : ℤ) (db : List Product) :
    (remove_product author "%" db).2 = db.filter (fun p => !(p.user_id == author)) := by
  unfold remove_product
  dsimp only
  apply List.filter_congr
  intro p hp
  simp [ilike_percent]

/-! ### Claim C10 -/

/-- C10: the product-name argument of `check_price`, `set_target` and
`remove_product` is matched with `ILIKE`, not equality: matching is
case-insensitive (`WIDGET` matches `widget` though the strings differ),
`_` and `%` act as wildcards, the pattern `%` matches every name — so
`remove_product` with `%` deletes all of the owner's rows and a single
call can affect several records (`remove_product` deletes two rows,
`set_target` updates two rows, and `check_price` finds a product under
a differently-cased wildcard pattern below). -/
theorem C10_ilike_matching :
    ilike "WIDGET" "widget" = true
    ∧ "WIDGET" ≠ "widget"
    ∧ ilike "w_dget" "widget" = true
    ∧ ilike "%get" "widget" = true
    ∧ (∀ s : String, ilike "%" s = true)
    ∧ (∀ (author : ℤ) (db : List Product),
        (remove_product author "%" db).2 = db.filter (fun p => !(p.user_id == author)))
    ∧ (remove_product 1 "widget%"
        [⟨1, 1, "s", "Widget A", "u", "c", 5⟩, ⟨2, 1, "s", "widget B", "u", "c", 6⟩]).2 = []
    ∧ check_price (fun _ _ => some (10 : ℚ)) 1 "wIdGeT%"
        [⟨1, 1, "s", "Widget A", "u", "c", 5⟩] = CheckOutcome.priceIs 10
    ∧ (set_target 1 "%" 9
        [⟨1, 1, "s", "A", "u", "c", 5⟩, ⟨2, 1, "s", "B", "u", "c", 6⟩]).2
        = [⟨1, 1, "s", "A", "u", "c", 9⟩, ⟨2, 1, "s", "B", "u", "c", 9⟩] :=
  ⟨by decide, by decide, by decide, by decide, ilike_percent, remove_product_percent,
   by decide, by decide, by decide⟩

end PriceBot
